import Mathlib

/-!
Verification of the review pipeline of `enterprise-grade-ai-reviewer`.

A shallow embedding, in Lean 4, of the core review-pipeline logic of the
repository: diff normalization/truncation (`github/diff.ts`), the retry
executor (`utils/retry.ts`) together with the OpenRouter client's retry
classification (`openrouter/client.ts`), the parallel scanner fan-out
(`review/scanner.ts` with `utils/concurrency.ts`), and the judge
aggregation/parsing (`review/judge.ts` with `review/prompts.ts`).

Modelling conventions:
* JavaScript strings are modelled as `List Char` (`Str`).  All inputs we
  reason about live in the Basic Multilingual Plane, where JavaScript's
  UTF-16 `length` coincides with the code-point count used here.
* Asynchronous functions are modelled as pure functions; the outcome of each
  network call (`fetch` / `callOpenRouter`) is passed in as an explicit
  `Except` argument, an error carrying the thrown `Error`'s message.  A
  function that catches all exceptions is therefore total.
* Wall-clock measurements (`performance.now()`, the recorded `durationMs`
  fields) and logging are not modelled: no claim depends on them.
* `Math.random()` values are passed in as rational parameters in `[0, 1)`;
  JavaScript floating-point arithmetic on them is modelled by exact rational
  arithmetic (the computations involved, `x * 0.25`, `+`, `Math.round`, stay
  well inside the exactly-representable range for the inputs considered).
-/

namespace AIReviewer

/-- JavaScript strings, modelled as lists of characters. -/
abbrev Str := List Char

/-! ## JavaScript string primitives -/

/-- The whitespace class used by JavaScript's `\s` regex class and
`String.prototype.trim`: space, tab, LF, CR, VT, FF, NBSP (the characters
relevant to the texts this development evaluates). -/
def isJsWhitespace (c : Char) : Bool :=
  c = ' ' || c = '\t' || c = '\n' || c = '\r' ||
  c = '\x0b' || c = '\x0c' || c = ' '

/-- JavaScript `String.prototype.toLowerCase`, restricted to the simple
one-to-one case mappings of the characters occurring in this repository's
keyword tables: ASCII letters and the Latin letters with diacritics used by
the localized headers/keywords.  CJK and Hangul characters have no case and
are returned unchanged, as in Unicode. -/
def jsToLower (c : Char) : Char :=
  if 'A' ≤ c ∧ c ≤ 'Z' then Char.ofNat (c.toNat + 32)
  else if c = 'Ä' then 'ä' else if c = 'Ö' then 'ö' else if c = 'Ü' then 'ü'
  else if c = 'Ç' then 'ç' else if c = 'Ş' then 'ş' else if c = 'Ğ' then 'ğ'
  else if c = 'É' then 'é' else if c = 'È' then 'è' else if c = 'Ê' then 'ê'
  else if c = 'À' then 'à' else if c = 'Â' then 'â' else if c = 'Á' then 'á'
  else if c = 'Í' then 'í' else if c = 'Ó' then 'ó' else if c = 'Ú' then 'ú'
  else if c = 'Ñ' then 'ñ' else if c = 'Î' then 'î' else if c = 'Ô' then 'ô'
  else c

/-- `toLowerCase` on a whole string. -/
def jsToLowerStr (s : Str) : Str := s.map jsToLower

/-- JavaScript `String.prototype.trim`. -/
def jsTrim (s : Str) : Str :=
  ((s.dropWhile isJsWhitespace).reverse.dropWhile isJsWhitespace).reverse

/-- Decimal rendering of a natural number (JavaScript number-to-string
interpolation for the non-negative integers used in this code base). -/
def natStr (n : Nat) : Str := (Nat.repr n).data

/-- Index of the first occurrence of `pat` in `s` (the start position), as in
JavaScript `String.prototype.indexOf`; `none` when `pat` does not occur. -/
def firstOccFrom (pat : Str) : Str → Option Nat
  | [] => if pat.isPrefixOf ([] : Str) then some 0 else none
  | c :: rest =>
    if pat.isPrefixOf (c :: rest) then some 0
    else (firstOccFrom pat rest).map (· + 1)

/-- Largest start position `m ≤ n` at which `pat` occurs in `s`, or `none`.
`lastOccFrom pat s s.length` is JavaScript `s.lastIndexOf(pat)` (with `none`
in place of `-1`). -/
def lastOccFrom (pat s : Str) : Nat → Option Nat
  | 0 => if pat.isPrefixOf s then some 0 else none
  | n + 1 =>
    if pat.isPrefixOf (s.drop (n + 1)) then some (n + 1)
    else lastOccFrom pat s n

/-- JavaScript `String.prototype.includes`: substring containment. -/
def jsIncludes (s sub : Str) : Bool := (firstOccFrom sub s).isSome

/-- JavaScript `String.prototype.split` with a (non-empty) string separator:
split at the leftmost occurrence repeatedly.  The fuel argument (instantiated
with `s.length`) only serves termination; it is never exhausted for non-empty
separators. -/
def splitOnSeqAux (sep : Str) : Str → Nat → List Str
  | s, 0 => [s]
  | s, fuel + 1 =>
    match firstOccFrom sep s with
    | none => [s]
    | some j => s.take j :: splitOnSeqAux sep (s.drop (j + sep.length)) fuel

/-- `s.split(sep)` for a non-empty separator `sep`. -/
def splitOnSeq (sep s : Str) : List Str := splitOnSeqAux sep s s.length

/-! ## Retry executor (`src/utils/retry.ts`) and the OpenRouter client's
retry classification (`src/openrouter/client.ts`, `makeRequest`). -/

/-- `RetryOptions` of `retry.ts`.  The retryability predicate is passed
separately to `withRetry` below. -/
structure RetryOptions where
  maxAttempts : Nat
  initialDelayMs : ℚ
  maxDelayMs : ℚ
  backoffMultiplier : ℚ
  jitter : Bool
deriving Repr

/-- `DEFAULT_OPTIONS` of `retry.ts`. -/
def defaultRetryOptions : RetryOptions :=
  { maxAttempts := 3, initialDelayMs := 1000, maxDelayMs := 30000
    backoffMultiplier := 2, jitter := true }

/-- JavaScript `Math.round` (round half toward positive infinity). -/
def jsRound (q : ℚ) : ℤ := ⌊q + 1 / 2⌋

/-- The pre-jitter ("base") delay of `calculateDelay` in `retry.ts`:
`min(initialDelayMs * backoffMultiplier^(attempt-1), maxDelayMs)`. -/
def backoffBaseDelay (attempt : Nat) (opts : RetryOptions) : ℚ :=
  min (opts.initialDelayMs * opts.backoffMultiplier ^ (attempt - 1)) opts.maxDelayMs

/-- `calculateDelay` of `retry.ts`.  `rand` is the value drawn from
`Math.random()` for this attempt; jitter adds `delay * 0.25 * rand`. -/
def calculateDelay (attempt : Nat) (opts : RetryOptions) (rand : ℚ) : ℤ :=
  let delay := backoffBaseDelay attempt opts
  let delay := if opts.jitter then delay + delay * (1 / 4) * rand else delay
  jsRound delay

/-- The default `isRetryableError` of `retry.ts` (used when no predicate is
supplied; `makeRequest` supplies its own, below). -/
def isRetryableErrorDefault (msg : Str) : Bool :=
  let m := jsToLowerStr msg
  jsIncludes m "timeout".data || jsIncludes m "econnreset".data ||
  jsIncludes m "econnrefused".data || jsIncludes m "rate limit".data ||
  jsIncludes m "429".data || jsIncludes m "503".data || jsIncludes m "502".data

/-- The loop body of `withRetry` in `retry.ts`.  `f attempt` is the outcome of
the `attempt`-th execution of the wrapped thunk (1-indexed); `rands attempt`
the `Math.random()` draw used for that attempt's jitter.  `fuel` is
`maxAttempts - attempt`, so `fuel = 0` means the current attempt is the last
one.  Returns the overall outcome, the list of delays slept (in ms, in
order), and the number of attempts that were made. -/
def withRetryAux (f : Nat → Except Str α) (shouldRetry : Str → Bool)
    (opts : RetryOptions) (rands : Nat → ℚ) :
    Nat → Nat → Except Str α × List ℤ × Nat
  | attempt, 0 =>
    -- `attempt === opts.maxAttempts`: the last error is rethrown unchanged,
    -- with no further sleep.
    match f attempt with
    | .ok v => (.ok v, [], attempt)
    | .error e => (.error e, [], attempt)
  | attempt, fuel + 1 =>
    match f attempt with
    | .ok v => (.ok v, [], attempt)
    | .error e =>
      if shouldRetry e then
        let d := calculateDelay attempt opts (rands attempt)
        match withRetryAux f shouldRetry opts rands (attempt + 1) fuel with
        | (res, ds, n) => (res, d :: ds, n)
      else (.error e, [], attempt)

/-- `withRetry` of `retry.ts`: attempts `1 .. opts.maxAttempts`. -/
def withRetry (f : Nat → Except Str α) (shouldRetry : Str → Bool)
    (opts : RetryOptions) (rands : Nat → ℚ) : Except Str α × List ℤ × Nat :=
  withRetryAux f shouldRetry opts rands 1 (opts.maxAttempts - 1)

/-- The `isRetryable` predicate `OpenRouterClient.makeRequest` passes to
`withRetry` (`openrouter/client.ts`): retry when the lower-cased error
message contains `'429'`, `'rate limit'`, `'timeout'`, `'503'` or `'502'`. -/
def openRouterShouldRetry (msg : Str) : Bool :=
  let m := jsToLowerStr msg
  jsIncludes m "429".data || jsIncludes m "rate limit".data ||
  jsIncludes m "timeout".data || jsIncludes m "503".data ||
  jsIncludes m "502".data

/-- The options `makeRequest` passes to `withRetry`
(`{ maxAttempts: 3, initialDelayMs: 1000 }` merged over the defaults). -/
def openRouterRetryOptions : RetryOptions :=
  { defaultRetryOptions with maxAttempts := 3, initialDelayMs := 1000 }

/-- The message of the error `makeRequest` throws for a non-OK HTTP response:
`` `OpenRouter API error (${response.status}): ${errorText}` ``. -/
def makeRequestErrorMessage (status : Nat) (errorText : Str) : Str :=
  "OpenRouter API error (".data ++ natStr status ++ "): ".data ++ errorText

/-- `makeRequest` of `openrouter/client.ts`, as seen by the retry machinery:
the wrapped `fetch` thunk's outcome on the `n`-th attempt is `f n` (an error
carries the thrown message, for HTTP failures `makeRequestErrorMessage`). -/
def makeRequestModel (f : Nat → Except Str α) (rands : Nat → ℚ) :
    Except Str α × List ℤ × Nat :=
  withRetry f openRouterShouldRetry openRouterRetryOptions rands

/-! ## Diff normalization (`src/github/diff.ts`)

`normalizeDiff` first fetches the head SHA and the file list from the GitHub
API; the fetched values are passed to the pure core below as arguments
(`headSha`, `allFiles`). -/

/-- The five-way (plus `changed`) file status vocabulary of `FileDiff`. -/
inductive FileStatus where
  | added | removed | modified | renamed | copied | changed
deriving DecidableEq, Repr

/-- `FileDiff` of `github/diff.ts`. -/
structure FileDiff where
  filename : Str
  status : FileStatus
  additions : Nat
  deletions : Nat
  patch : Option Str
  previousFilename : Option Str
deriving DecidableEq, Repr

/-- Truthiness of `f.patch` in JavaScript: defined and non-empty. -/
def patchTruthy (f : FileDiff) : Bool :=
  match f.patch with
  | some p => !p.isEmpty
  | none => false

/-- The sort key `additions + deletions` used by the file-count truncation. -/
def changeSize (f : FileDiff) : Nat := f.additions + f.deletions

/-- The ordering realised by `sort((a, b) => (b.additions + b.deletions) -
(a.additions + a.deletions))`: `a` may be placed before `b` exactly when the
comparator is `≤ 0`, i.e. descending by `changeSize`. -/
def fileLE (a b : FileDiff) : Prop := changeSize b ≤ changeSize a

instance : DecidableRel fileLE := fun a b =>
  inferInstanceAs (Decidable (changeSize b ≤ changeSize a))

instance : IsTotal FileDiff fileLE :=
  ⟨fun a b => Nat.le_total (changeSize b) (changeSize a)⟩

instance : IsTrans FileDiff fileLE :=
  ⟨fun _ _ _ h h' => Nat.le_trans h' h⟩

/-- JavaScript's `Array.prototype.sort` is stable, and the result of a stable
sort under the total preorder `fileLE` is exactly Mathlib's (stable)
insertion sort under `fileLE`.  This is the model of the `.sort(...)` call in
`normalizeDiff`. -/
def jsSortByChangeSize (files : List FileDiff) : List FileDiff :=
  List.insertionSort fileLE files

/-- The status annotation line of `buildCombinedDiff`.  Note that for a
renamed file with no `previousFilename` the JavaScript template interpolates
the string `"undefined"`. -/
def statusLine (f : FileDiff) : Str :=
  match f.status with
  | .added => "new file".data
  | .removed => "deleted file".data
  | .renamed =>
    "renamed from ".data ++
      (match f.previousFilename with
       | some p => p
       | none => "undefined".data)
  | _ => "modified".data

/-- `buildCombinedDiff` of `github/diff.ts`: for each file with truthy patch,
`` `${header}\n--- ${status} ---\n${f.patch}` ``, joined with `"\n\n"`. -/
def buildCombinedDiff (files : List FileDiff) : Str :=
  List.intercalate "\n\n".data
    ((files.filter patchTruthy).map fun f =>
      "diff --git a/".data ++ f.filename ++ " b/".data ++ f.filename ++
        "\n--- ".data ++ statusLine f ++ " ---\n".data ++
        (match f.patch with | some p => p | none => "undefined".data))

/-- The file-boundary marker searched for by the character truncation. -/
def diffMarker : Str := "\ndiff --git".data

/-- Step 1 of `normalizeDiff` (file-count truncation): when more than
`maxFiles` files were found, keep the truthy-patch files, stable-sorted
descending by change size, and take the first `maxFiles`; also produce the
truncation reason.  Otherwise the list is untouched. -/
def limitFiles (allFiles : List FileDiff) (maxFiles : Nat) :
    List FileDiff × Option Str :=
  if allFiles.length > maxFiles then
    ((jsSortByChangeSize (allFiles.filter patchTruthy)).take maxFiles,
      some ("Limited to ".data ++ natStr maxFiles ++ " files (found ".data ++
        natStr allFiles.length ++ ")".data))
  else (allFiles, none)

/-- Step 2 of `normalizeDiff` (character truncation): truncate to `maxChars`,
then, if the last `"\ndiff --git"` marker of the truncated text sits at a
position `> maxChars * 0.5` (`2 * m > maxChars` in exact arithmetic), cut at
that marker instead.  When `lastIndexOf` finds nothing it returns `-1`,
which never exceeds the (non-negative) threshold, so the text is kept. -/
def charTruncate (s : Str) (maxChars : Nat) : Str :=
  if s.length > maxChars then
    let truncated := s.take maxChars
    match lastOccFrom diffMarker truncated truncated.length with
    | some m => if 2 * m > maxChars then truncated.take m else truncated
    | none => truncated
  else s

/-- `TruncationInfo` of `github/diff.ts`. -/
structure TruncationInfo where
  filesFound : Nat
  filesReviewed : Nat
  originalChars : Nat
  truncatedChars : Nat
  wasTruncated : Bool
  truncationReason : Option Str
deriving DecidableEq, Repr

/-- `NormalizedDiff` of `github/diff.ts`. -/
structure NormalizedDiff where
  files : List FileDiff
  combinedDiff : Str
  headSha : Str
  truncation : TruncationInfo
deriving DecidableEq, Repr

/-- The pure core of `normalizeDiff` of `github/diff.ts`: the fetched file
list and head SHA are arguments, the two truncation steps are `limitFiles`
and `charTruncate` above, and `wasTruncated` is the truthiness of the
(string) reason, which is non-empty whenever present. -/
def normalizeDiffPure (allFiles : List FileDiff) (maxFiles maxChars : Nat)
    (headSha : Str) : NormalizedDiff :=
  let filesFound := allFiles.length
  let step1 := limitFiles allFiles maxFiles
  let files := step1.1
  let combined := buildCombinedDiff files
  let originalChars := combined.length
  let finalDiff := charTruncate combined maxChars
  let truncationReason : Option Str :=
    if originalChars > maxChars then
      let charReason := "Truncated to ".data ++ natStr maxChars ++
        " chars (original ".data ++ natStr originalChars ++ ")".data
      match step1.2 with
      | some r => some (r ++ "; ".data ++ charReason)
      | none => some charReason
    else step1.2
  { files := files
    combinedDiff := finalDiff
    headSha := headSha
    truncation :=
      { filesFound := filesFound
        filesReviewed := files.length
        originalChars := originalChars
        truncatedChars := finalDiff.length
        wasTruncated := truncationReason.isSome
        truncationReason := truncationReason } }

/-! ## Review data model (`src/review/types.ts`) -/

/-- `Severity`. -/
inductive Severity where
  | critical | high | medium | low | info
deriving DecidableEq, Repr

/-- `FindingCategory`. -/
inductive FindingCategory where
  | bug | security | logic | performance | edgeCase | maintainability
  | style | bestPractice
deriving DecidableEq, Repr

/-- `Finding`. -/
structure Finding where
  id : Str
  severity : Severity
  category : FindingCategory
  file : Option Str
  line : Option Nat
  description : Str
  suggestion : Option Str
deriving DecidableEq, Repr

/-- `ScannerResult` (wall-clock `durationMs` omitted, see header). -/
structure ScannerResult where
  model : Str
  findings : List Finding
  rawResponse : Str
  tokensUsed : Nat
  success : Bool
  error : Option Str
deriving DecidableEq, Repr

/-- `ReviewConfig`. -/
structure ReviewConfig where
  scannerModels : List Str
  judgeModel : Str
  maxScannerTokens : Nat
  maxJudgeTokens : Nat
  scannerTemperature : ℚ
  judgeTemperature : ℚ
deriving DecidableEq, Repr

/-! ## Prompts (`src/review/prompts.ts`) -/

/-- `OutputLanguage`: the nine supported output languages. -/
inductive OutputLanguage where
  | en | tr | ja | de | fr | es | pt | zh | ko
deriving DecidableEq, Repr

/-- `LANGUAGE_NAMES`. -/
def languageName (l : OutputLanguage) : Str :=
  match l with
  | .en => "English".data
  | .tr => "Turkish".data
  | .ja => "Japanese".data
  | .de => "German".data
  | .fr => "French".data
  | .es => "Spanish".data
  | .pt => "Portuguese".data
  | .zh => "Chinese".data
  | .ko => "Korean".data

/-- The per-language entry of `SECTION_HEADERS`. -/
structure SectionHeaders where
  summary : Str
  critical : Str
  high : Str
  low : Str
  verdict : Str
deriving DecidableEq, Repr

/-- `SECTION_HEADERS` / `getSectionHeaders`. -/
def getSectionHeaders (l : OutputLanguage) : SectionHeaders :=
  match l with
  | .en => ⟨"Summary".data, "Critical Findings".data, "Important Findings".data,
            "Low Priority".data, "Verdict".data⟩
  | .tr => ⟨"Özet".data, "Kritik Bulgular".data, "Önemli Bulgular".data,
            "Düşük Öncelikli".data, "Sonuç".data⟩
  | .ja => ⟨"概要".data, "重大な問題".data, "重要な問題".data,
            "低優先度".data, "判定".data⟩
  | .de => ⟨"Zusammenfassung".data, "Kritische Befunde".data,
            "Wichtige Befunde".data, "Niedrige Priorität".data, "Urteil".data⟩
  | .fr => ⟨"Résumé".data, "Problèmes Critiques".data,
            "Problèmes Importants".data, "Priorité Basse".data, "Verdict".data⟩
  | .es => ⟨"Resumen".data, "Hallazgos Críticos".data,
            "Hallazgos Importantes".data, "Prioridad Baja".data, "Veredicto".data⟩
  | .pt => ⟨"Resumo".data, "Problemas Críticos".data,
            "Problemas Importantes".data, "Baixa Prioridade".data, "Veredito".data⟩
  | .zh => ⟨"摘要".data, "严重问题".data, "重要问题".data,
            "低优先级".data, "结论".data⟩
  | .ko => ⟨"요약".data, "심각한 문제".data, "중요한 문제".data,
            "낮은 우선순위".data, "판정".data⟩

/-- `buildScannerPrompt` of `prompts.ts`. -/
def buildScannerPrompt (diff : Str) (language : OutputLanguage) : Str :=
  "You are a senior software engineer performing a code review.\n\nReview the following Git diff.\nFocus on:\n- Bugs\n- Security issues\n- Incorrect logic\n- Performance problems\n- Missing edge cases\n\nRules:\n- Be concise\n- Bullet points only\n- Do NOT repeat the diff\n- Do NOT invent issues\n- Respond in ".data ++
    languageName language ++ "\n\nDiff:\n".data ++ diff

/-- `truncateDiff` of `prompts.ts` (default `maxChars = 50000`).  When the
truncated text has no newline, `lastIndexOf` yields `-1` and
`slice(0, -1)` drops the last character. -/
def truncateDiff (diff : Str) (maxChars : Nat := 50000) : Str :=
  if diff.length ≤ maxChars then diff
  else
    let truncated := diff.take maxChars
    let cut :=
      match lastOccFrom "\n".data truncated truncated.length with
      | some i => truncated.take i
      | none => truncated.take (truncated.length - 1)
    cut ++ "\n\n... [Diff truncated: ".data ++
      natStr (diff.length - maxChars) ++ " characters omitted] ...".data

/-! ## Concurrency (`src/utils/concurrency.ts`) -/

/-- `TaskResult` of `concurrency.ts` (wall-clock `durationMs` omitted). -/
structure TaskResult (R : Type) where
  index : Nat
  success : Bool
  result : Option R
  error : Option Str
deriving DecidableEq, Repr

/-- The task body of `allSettled`: `fn item` either fulfills (`.ok`) or
rejects (`.error` with the rejection's message); each branch records its
result slot.  The index is threaded so that the `i`-th task writes slot
`i`. -/
def allSettledAux (fn : α → Except Str R) : List α → Nat → List (TaskResult R)
  | [], _ => []
  | item :: rest, i =>
    (match fn item with
     | .ok r => ⟨i, true, some r, none⟩
     | .error e => ⟨i, false, none, some e⟩) :: allSettledAux fn rest (i + 1)

/-- `allSettled` of `concurrency.ts`: `Promise.all` over `items.map(async
(item, index) => ...)` where every branch resolves.  The result array is
assembled by input index, so per-task completion order cannot influence the
output order. -/
def allSettled (items : List α) (fn : α → Except Str R) : List (TaskResult R) :=
  allSettledAux fn items 0

/-! ## Scanner fan-out (`src/review/scanner.ts`)

`callOpenRouter` is modelled by the argument
`call : Str → Str → Except Str (Str × Nat)`, mapping a model id and a user
prompt to either `.ok (content, tokensUsed)` or `.error message`. -/

/-- `runSingleScanner` of `scanner.ts`: the whole body is a `try`/`catch`,
so the returned promise always fulfills — a failed call is converted into a
`ScannerResult` with `success := false` and the error message. -/
def runSingleScanner (model : Str) (diff : Str) (config : ReviewConfig)
    (language : OutputLanguage) (call : Str → Str → Except Str (Str × Nat)) :
    ScannerResult :=
  match call model (buildScannerPrompt diff language) with
  | .ok (content, tokensUsed) =>
    { model := model, findings := [], rawResponse := content
      tokensUsed := tokensUsed, success := true, error := none }
  | .error e =>
    { model := model, findings := [], rawResponse := []
      tokensUsed := 0, success := false, error := some e }

/-- `runScanners` of `scanner.ts`: truncate the diff, fan out over
`config.scannerModels` via `allSettled` (each branch is `runSingleScanner`,
which never rejects, so every `TaskResult` is a success carrying a
`ScannerResult`), then unwrap.  Total: the orchestrator itself never
rejects. -/
def runScanners (diff : Str) (config : ReviewConfig) (language : OutputLanguage)
    (call : Str → Str → Except Str (Str × Nat)) : List ScannerResult :=
  let truncatedDiff := truncateDiff diff
  let results := allSettled config.scannerModels
    (fun model => .ok (runSingleScanner model truncatedDiff config language call))
  (results.filter fun r => r.success && r.result.isSome).filterMap (·.result)

/-! ## Judge aggregation (`src/review/judge.ts`) -/

/-- `FinalReview['verdict']`. -/
inductive Verdict where
  | approve | requestChanges | comment
deriving DecidableEq, Repr

/-- `FinalReview['stats']`. -/
structure SeverityStats where
  critical : Nat
  high : Nat
  medium : Nat
  low : Nat
  info : Nat
deriving DecidableEq, Repr

/-- `FinalReview` (`estimatedCost` as an exact rational). -/
structure FinalReview where
  findings : List Finding
  summary : Str
  verdict : Verdict
  stats : SeverityStats
  contributingModels : List Str
  judgeModel : Str
  estimatedCost : ℚ
deriving DecidableEq, Repr

/-- `parseVerdict` of `judge.ts`: the multi-language keyword cascade over the
lower-cased text. -/
def parseVerdict (text : Str) : Verdict :=
  let lower := jsToLowerStr text
  -- English
  if jsIncludes lower "approve".data then .approve
  else if jsIncludes lower "request_changes".data ||
    jsIncludes lower "request changes".data ||
    jsIncludes lower "changes requested".data then .requestChanges
  -- Turkish
  else if jsIncludes lower "onay".data then .approve
  else if jsIncludes lower "değişiklik".data then .requestChanges
  -- Japanese
  else if jsIncludes lower "承認".data then .approve
  else if jsIncludes lower "変更要求".data || jsIncludes lower "変更".data then
    .requestChanges
  -- German
  else if jsIncludes lower "genehmigt".data then .approve
  else if jsIncludes lower "änderungen".data then .requestChanges
  -- French
  else if jsIncludes lower "approuvé".data then .approve
  else if jsIncludes lower "modifications".data then .requestChanges
  -- Spanish
  else if jsIncludes lower "aprobado".data then .approve
  else if jsIncludes lower "cambios".data then .requestChanges
  -- Portuguese
  else if jsIncludes lower "aprovado".data then .approve
  else if jsIncludes lower "alterações".data then .requestChanges
  -- Chinese
  else if jsIncludes lower "批准".data || jsIncludes lower "已批准".data then
    .approve
  else if jsIncludes lower "更改".data || jsIncludes lower "需要".data then
    .requestChanges
  -- Korean
  else if jsIncludes lower "승인".data then .approve
  else if jsIncludes lower "변경".data then .requestChanges
  else .comment

/-- Line terminators excluded by the regex metacharacter `.`. -/
def isLineTerm (c : Char) : Bool :=
  c = '\n' || c = '\r' || c = ' ' || c = ' '

/-- The capture of `/^[-*•]\s*(.+)/` on one line, `none` when the regex does
not match.  The greedy `\s*` run followed by `(.+)` backtracks until a
non-line-terminator character is available; since the capture is only ever
`trim`med by the caller, a capture consisting solely of whitespace (possible
only by such backtracking) is returned as `[]`, which trims identically. -/
def bulletCapture (line : Str) : Option Str :=
  match line with
  | [] => none
  | c :: tail =>
    if c = '-' || c = '*' || c = '•' then
      let rest := tail.dropWhile isJsWhitespace
      if rest.isEmpty then
        if tail.isEmpty then none else some []
      else some (rest.takeWhile fun ch => !isLineTerm ch)
    else none

/-- The line loop of `parseFindings`: section-header lines switch the current
severity; bullet lines whose trimmed capture is longer than 10 characters
become findings (id `finding-<i>`, default category `bug`). -/
def parseFindingsAux (headers : SectionHeaders) :
    List Str → Severity → Nat → List Finding
  | [], _, _ => []
  | line :: rest, cur, idx =>
    if jsIncludes line headers.critical || jsIncludes line "Critical".data ||
        jsIncludes line "Kritik".data || jsIncludes line "重大".data then
      parseFindingsAux headers rest .critical idx
    else if jsIncludes line headers.high || jsIncludes line "Important".data ||
        jsIncludes line "High".data || jsIncludes line "Önemli".data ||
        jsIncludes line "重要".data then
      parseFindingsAux headers rest .high idx
    else if jsIncludes line "Medium".data || jsIncludes line "Orta".data ||
        jsIncludes line "中等".data then
      parseFindingsAux headers rest .medium idx
    else if jsIncludes line headers.low || jsIncludes line "Low".data ||
        jsIncludes line "Düşük".data || jsIncludes line "低".data then
      parseFindingsAux headers rest .low idx
    else
      match bulletCapture line with
      | some cap =>
        let description := jsTrim cap
        if description.length > 10 then
          { id := "finding-".data ++ natStr idx, severity := cur
            category := .bug, file := none, line := none
            description := description, suggestion := none } ::
            parseFindingsAux headers rest cur (idx + 1)
        else parseFindingsAux headers rest cur idx
      | none => parseFindingsAux headers rest cur idx

/-- `parseFindings` of `judge.ts`: split on `'\n'`, walk the lines with
current severity initialised to `info`. -/
def parseFindings (judgeResponse : Str) (language : OutputLanguage) :
    List Finding :=
  parseFindingsAux (getSectionHeaders language)
    (judgeResponse.splitOn '\n') .info 0

/-- Case-insensitive (regex `i`-flag) prefix test of a header against a text
position, via the simple lower-case mapping. -/
def caselessPrefix : Str → Str → Bool
  | [], _ => true
  | _ :: _, [] => false
  | a :: as, b :: bs => (jsToLower a = jsToLower b) && caselessPrefix as bs

/-- Attempt of `` /##\s*<hdr>\s*\n([\s\S]*?)(?=\n##|$)/i `` at one position
(given as the suffix `u` of the response).  The pre-header `\s*` is forced
maximal (headers start with non-whitespace); `\s*\n` matches exactly when
the maximal whitespace run after the header contains a newline, consuming
through its last newline (greedy `\s*` with one-character backtracking);
the lazy capture runs to the first `"\n##"` or to the end of the string. -/
def hdrMatchAt (hdr : Str) (u : Str) : Option Str :=
  match u with
  | '#' :: '#' :: rest =>
    let afterWs := rest.dropWhile isJsWhitespace
    if caselessPrefix hdr afterWs then
      let afterHdr := afterWs.drop hdr.length
      let run := afterHdr.takeWhile isJsWhitespace
      match lastOccFrom "\n".data run run.length with
      | none => none
      | some p =>
        let body := afterHdr.drop (p + 1)
        match firstOccFrom "\n##".data body with
        | some j => some (body.take j)
        | none => some body
    else none
  | _ => none

/-- Leftmost match of the section pattern: scan start positions left to
right, as the regex engine does. -/
def hdrMatchFrom (hdr : Str) : Str → Option Str
  | [] => none
  | u@(_ :: rest) =>
    match hdrMatchAt hdr u with
    | some cap => some cap
    | none => hdrMatchFrom hdr rest

/-- The pattern loop shared by `extractSummary` and `extractVerdict`: return
the first pattern's capture that is truthy (non-empty) — `if (match?.[1])`
skips both failed matches and empty captures. -/
def firstCapture (pats : List Str) (resp : Str) : Option Str :=
  match pats with
  | [] => none
  | hdr :: rest =>
    match hdrMatchFrom hdr resp with
    | some cap => if cap.isEmpty then firstCapture rest resp else some cap
    | none => firstCapture rest resp

/-- The `summaryPatterns` header list of `extractSummary` (the configured
language's header first, then every supported language's). -/
def summaryPatternHeaders (headers : SectionHeaders) : List Str :=
  [headers.summary, "Summary".data, "Özet".data, "概要".data,
   "Zusammenfassung".data, "Résumé".data, "Resumen".data, "Resumo".data,
   "摘要".data, "요약".data]

/-- `extractSummary` of `judge.ts`: first matching summary section (trimmed),
else the first non-blank `"\n\n"`-paragraph cut to 500 characters, else
`"Review completed."`. -/
def extractSummary (judgeResponse : Str) (language : OutputLanguage) : Str :=
  let headers := getSectionHeaders language
  match firstCapture (summaryPatternHeaders headers) judgeResponse with
  | some cap => jsTrim cap
  | none =>
    let paragraphs := (splitOnSeq "\n\n".data judgeResponse).filter
      fun p => !(jsTrim p).isEmpty
    match paragraphs with
    | p :: _ => p.take 500
    | [] => "Review completed.".data

/-- The `verdictPatterns` header list of `extractVerdict` (note the source
lists `Verdict` twice: once for English and once for French). -/
def verdictPatternHeaders (headers : SectionHeaders) : List Str :=
  [headers.verdict, "Verdict".data, "Sonuç".data, "判定".data, "Urteil".data,
   "Verdict".data, "Veredicto".data, "Veredito".data, "结论".data, "판정".data]

/-- `extractVerdict` of `judge.ts`: `parseVerdict` of the first matching
verdict section, else `parseVerdict` of the whole response. -/
def extractVerdict (judgeResponse : Str) (language : OutputLanguage) : Verdict :=
  let headers := getSectionHeaders language
  match firstCapture (verdictPatternHeaders headers) judgeResponse with
  | some cap => parseVerdict cap
  | none => parseVerdict judgeResponse

/-- `countBySeverity` of `judge.ts`. -/
def countBySeverity (findings : List Finding) : SeverityStats :=
  { critical := (findings.filter fun f => f.severity = .critical).length
    high := (findings.filter fun f => f.severity = .high).length
    medium := (findings.filter fun f => f.severity = .medium).length
    low := (findings.filter fun f => f.severity = .low).length
    info := (findings.filter fun f => f.severity = .info).length }

/-- `estimateTokens` of `prompts.ts`: `Math.ceil(text.length / 3)`. -/
def estimateTokens (text : Str) : Nat := (text.length + 2) / 3

/-- The `formattedReviews` block of `buildJudgePrompt`: the successful
reviews, each labeled `` `--- Review ${i + 1} (Model: ${r.model}) ---` ``,
joined with `'\n'`. -/
def formatReviews (reviews : List ScannerResult) : Str :=
  List.intercalate "\n".data
    ((reviews.filter (·.success)).enum.map fun ri =>
      "--- Review ".data ++ natStr (ri.1 + 1) ++ " (Model: ".data ++
        ri.2.model ++ ") ---\n".data ++ ri.2.rawResponse ++ "\n".data)

/-- `buildJudgePrompt` of `prompts.ts`. -/
def buildJudgePrompt (reviews : List ScannerResult) (language : OutputLanguage) :
    Str :=
  let headers := getSectionHeaders language
  "You are a code review judge.\n\nBelow are multiple independent code review outputs for the SAME code.\n\nTasks:\n1. Remove duplicates\n2. Resolve contradictions\n3. Discard incorrect or weak findings\n4. Prioritize critical issues\n5. Produce ONE final review\n\nRules:\n- Do NOT add new findings\n- Use only provided inputs\n- Output must be concise and actionable\n- Respond in ".data ++
    languageName language ++ "\n\nFormat your response as:\n\n## ".data ++
    headers.summary ++ "\n[1-2 sentence overview]\n\n## ".data ++
    headers.critical ++ "\n- [Critical severity findings only]\n\n## ".data ++
    headers.high ++ "\n- [High priority findings]\n\n## ".data ++
    headers.low ++ "\n- [Minor improvement suggestions if any]\n\n## ".data ++
    headers.verdict ++
    "\n[APPROVE / REQUEST_CHANGES / COMMENT with brief justification]\n\nReviews:\n".data ++
    formatReviews reviews

/-- The two fatal error shapes of `judgeReviews`: the thrown
`'No successful scanner results to judge'` error, and a failed judge model
call (after its retries), carrying that error's message. -/
inductive JudgeError where
  | noSuccessfulScanners
  | judgeCallFailed (msg : Str)
deriving DecidableEq, Repr

/-- `judgeReviews` of `judge.ts`.  The awaited `callOpenRouter` outcome for
the judge prompt is the argument `judgeCall`; `estCost` is the external
`estimateCost` lookup of `config/models.ts` (applied, as in the source, to
`estimateTokens(prompt)`, the scanner models, the judge model and
`maxScannerTokens`).  The second component counts how many judge model calls
were made. -/
def judgeReviews (reviews : List ScannerResult) (config : ReviewConfig)
    (language : OutputLanguage) (judgeCall : Except Str (Str × Nat))
    (estCost : Nat → List Str → Str → Nat → ℚ) :
    Except JudgeError FinalReview × Nat :=
  let successfulReviews := reviews.filter (·.success)
  if successfulReviews.length = 0 then (.error .noSuccessfulScanners, 0)
  else
    let prompt := buildJudgePrompt successfulReviews language
    match judgeCall with
    | .error e => (.error (.judgeCallFailed e), 1)
    | .ok (judgeResponse, _tokensUsed) =>
      let contributingModels := successfulReviews.map (·.model)
      let findings := parseFindings judgeResponse language
      let summary := extractSummary judgeResponse language
      let verdict := extractVerdict judgeResponse language
      let stats := countBySeverity findings
      let diffTokens := estimateTokens prompt
      let cost := estCost diffTokens config.scannerModels config.judgeModel
        config.maxScannerTokens
      let finalVerdict :=
        if stats.critical > 0 then Verdict.requestChanges
        else if stats.high > 2 then Verdict.requestChanges
        else if findings.length = 0 then Verdict.approve
        else verdict
      (.ok { findings := findings, summary := summary, verdict := finalVerdict
             stats := stats, contributingModels := contributingModels
             judgeModel := config.judgeModel, estimatedCost := cost }, 1)

/-! ## Helper lemmas -/

/-- Every finding is tallied under exactly one severity, so the five counters
sum to the list length. -/
theorem countBySeverity_total (findings : List Finding) :
    (countBySeverity findings).critical + (countBySeverity findings).high +
      (countBySeverity findings).medium + (countBySeverity findings).low +
      (countBySeverity findings).info = findings.length := by
  induction findings with
  | nil => rfl
  | cons f rest ih =>
    simp only [countBySeverity, List.filter_cons, List.length_cons] at ih ⊢
    cases h : f.severity <;> simp [h] <;> omega

/-- Sample inputs used by the witnesses below. -/
def sampleConfig : ReviewConfig :=
  { scannerModels := ["model-a".data], judgeModel := "judge-model".data
    maxScannerTokens := 600, maxJudgeTokens := 800
    scannerTemperature := 3 / 10, judgeTemperature := 1 / 5 }

/-- A scanner outcome that completed without error but produced no content. -/
def okScanner : ScannerResult :=
  { model := "model-a".data, findings := [], rawResponse := []
    tokensUsed := 12, success := true, error := none }

/-- A scanner outcome for a model whose call failed. -/
def failedScanner : ScannerResult :=
  { model := "model-a".data, findings := [], rawResponse := []
    tokensUsed := 0, success := false, error := some "boom".data }

/-! ## C2 -/

/-- C2: `judgeReviews` produces the fatal `noSuccessfulScanners` error exactly
when no input review has `success = true` (for every judge-call outcome); in
that case no judge model call is made; and a scanner call that completes
without error yields `success = true` whatever its content (so empty or
"LGTM" responses count as successful and cannot trigger the fatal
condition). -/
theorem c2_judge_fatal_iff (reviews : List ScannerResult)
    (config : ReviewConfig) (language : OutputLanguage)
    (judgeCall : Except Str (Str × Nat))
    (estCost : Nat → List Str → Str → Nat → ℚ) :
    ((judgeReviews reviews config language judgeCall estCost).1 =
        .error .noSuccessfulScanners ↔ ∀ r ∈ reviews, r.success = false) ∧
    ((∀ r ∈ reviews, r.success = false) →
      (judgeReviews reviews config language judgeCall estCost).2 = 0) ∧
    (∀ model diff content tokens (call : Str → Str → Except Str (Str × Nat)),
      call model (buildScannerPrompt diff language) = .ok (content, tokens) →
      (runSingleScanner model diff config language call).success = true ∧
      (runSingleScanner model diff config language call).rawResponse = content) := by
  have hall : (reviews.filter (·.success)).length = 0 ↔
      ∀ r ∈ reviews, r.success = false := by
    rw [List.length_eq_zero, List.filter_eq_nil_iff]
    simp
  refine ⟨?_, ?_, ?_⟩
  · constructor
    · intro h
      rw [← hall]
      by_contra hne
      simp only [judgeReviews, if_neg hne] at h
      cases judgeCall with
      | error e => simp at h
      | ok p => simp at h
    · intro h
      simp only [judgeReviews, if_pos (hall.mpr h)]
  · intro h
    simp only [judgeReviews, if_pos (hall.mpr h)]
  · intro model diff content tokens call hcall
    simp [runSingleScanner, hcall]

/-- C2 witness: on a single failed scanner the fatal error is produced with
zero judge calls, and an empty successful call is marked `success = true`. -/
theorem c2_witness :
    (judgeReviews [failedScanner] sampleConfig .en (.ok ([], 0))
        (fun _ _ _ _ => 0)).1 = .error .noSuccessfulScanners ∧
    (judgeReviews [failedScanner] sampleConfig .en (.ok ([], 0))
        (fun _ _ _ _ => 0)).2 = 0 ∧
    (runSingleScanner "model-a".data [] sampleConfig .en
        (fun _ _ => .ok ([], 0))).success = true :=
  ⟨(c2_judge_fatal_iff [failedScanner] sampleConfig .en (.ok ([], 0))
      (fun _ _ _ _ => 0)).1.mpr (by decide),
   (c2_judge_fatal_iff [failedScanner] sampleConfig .en (.ok ([], 0))
      (fun _ _ _ _ => 0)).2.1 (by decide),
   ((c2_judge_fatal_iff [] sampleConfig .en (.ok ([], 0))
      (fun _ _ _ _ => 0)).2.2 "model-a".data [] [] 0 (fun _ _ => .ok ([], 0))
      rfl).1⟩

/-! ## C3 -/

/-- Projection of a judge outcome to its verdict. -/
def verdictOf (r : Except JudgeError FinalReview) : Option Verdict :=
  match r with
  | .ok fr => some fr.verdict
  | .error _ => none

/-- C3: with at least one successful scanner and a successful judge call, the
final verdict of `judgeReviews` is `request-changes` when any critical
finding was parsed; otherwise `request-changes` when more than two high
findings were parsed; otherwise `approve` when no finding was parsed;
otherwise the parsed verdict unchanged. -/
theorem c3_verdict_override (reviews : List ScannerResult)
    (config : ReviewConfig) (language : OutputLanguage) (resp : Str)
    (tokens : Nat) (estCost : Nat → List Str → Str → Nat → ℚ)
    (h : ∃ r ∈ reviews, r.success = true) :
    verdictOf (judgeReviews reviews config language (.ok (resp, tokens))
        estCost).1 =
      some (if 0 < (countBySeverity (parseFindings resp language)).critical
        then Verdict.requestChanges
        else if 2 < (countBySeverity (parseFindings resp language)).high
        then Verdict.requestChanges
        else if (parseFindings resp language).length = 0 then Verdict.approve
        else extractVerdict resp language) := by
  have hne : ¬(reviews.filter (·.success)).length = 0 := by
    rw [List.length_eq_zero, List.filter_eq_nil_iff]
    push_neg
    obtain ⟨r, hr, hs⟩ := h
    exact ⟨r, hr, by simp [hs]⟩
  simp only [judgeReviews, if_neg hne, verdictOf]

/-- C3 witness: an empty judge response parses to zero findings, so the final
verdict is forced to `approve`. -/
theorem c3_witness :
    verdictOf (judgeReviews [okScanner] sampleConfig .en (.ok ([], 7))
        (fun _ _ _ _ => 0)).1 = some Verdict.approve := by
  have h := c3_verdict_override [okScanner] sampleConfig .en [] 7
    (fun _ _ _ _ => 0) ⟨okScanner, by decide, rfl⟩
  rw [h]
  decide

/-! ## C10 -/

/-- C10: the per-severity counts of `countBySeverity` always sum to the number
of findings, and hence in every `FinalReview` produced by `judgeReviews` the
five `stats` fields sum to `findings.length`. -/
theorem c10_stats_partition :
    (∀ findings : List Finding,
      (countBySeverity findings).critical + (countBySeverity findings).high +
        (countBySeverity findings).medium + (countBySeverity findings).low +
        (countBySeverity findings).info = findings.length) ∧
    (∀ (reviews : List ScannerResult) (config : ReviewConfig)
      (language : OutputLanguage) (judgeCall : Except Str (Str × Nat))
      (estCost : Nat → List Str → Str → Nat → ℚ) (fr : FinalReview),
      (judgeReviews reviews config language judgeCall estCost).1 = .ok fr →
      fr.stats.critical + fr.stats.high + fr.stats.medium + fr.stats.low +
        fr.stats.info = fr.findings.length) := by
  refine ⟨countBySeverity_total, ?_⟩
  intro reviews config language judgeCall estCost fr h
  by_cases hs : (reviews.filter (·.success)).length = 0
  · simp [judgeReviews, hs] at h
  · simp only [judgeReviews, if_neg hs] at h
    cases judgeCall with
    | error e => simp at h
    | ok p =>
      simp only at h
      rw [Except.ok.injEq] at h
      subst h
      exact countBySeverity_total _

/-- C10 witness: the partition equality on the concrete review produced from
one contentless successful scanner and an empty judge response. -/
theorem c10_witness :
    ({ findings := [], summary := "Review completed.".data
       verdict := .approve, stats := ⟨0, 0, 0, 0, 0⟩
       contributingModels := ["model-a".data]
       judgeModel := "judge-model".data
       estimatedCost := 0 } : FinalReview).stats.critical +
      ({ findings := [], summary := "Review completed.".data
         verdict := .approve, stats := ⟨0, 0, 0, 0, 0⟩
         contributingModels := ["model-a".data]
         judgeModel := "judge-model".data
         estimatedCost := 0 } : FinalReview).stats.high +
      ({ findings := [], summary := "Review completed.".data
         verdict := .approve, stats := ⟨0, 0, 0, 0, 0⟩
         contributingModels := ["model-a".data]
         judgeModel := "judge-model".data
         estimatedCost := 0 } : FinalReview).stats.medium +
      ({ findings := [], summary := "Review completed.".data
         verdict := .approve, stats := ⟨0, 0, 0, 0, 0⟩
         contributingModels := ["model-a".data]
         judgeModel := "judge-model".data
         estimatedCost := 0 } : FinalReview).stats.low +
      ({ findings := [], summary := "Review completed.".data
         verdict := .approve, stats := ⟨0, 0, 0, 0, 0⟩
         contributingModels := ["model-a".data]
         judgeModel := "judge-model".data
         estimatedCost := 0 } : FinalReview).stats.info =
      ({ findings := [], summary := "Review completed.".data
         verdict := .approve, stats := ⟨0, 0, 0, 0, 0⟩
         contributingModels := ["model-a".data]
         judgeModel := "judge-model".data
         estimatedCost := 0 } : FinalReview).findings.length :=
  c10_stats_partition.2 [okScanner] sampleConfig .en (.ok ([], 7))
    (fun _ _ _ _ => 0) _ rfl

/-! ## Sorting and search helper lemmas for the normalizer -/

/-- Inserting into the stable descending sort inserts before the first
element of no larger change size, so per-key filtering commutes with the
insertion. -/
theorem filter_orderedInsert_changeSize (k : Nat) (x : FileDiff)
    (l : List FileDiff) :
    (List.orderedInsert fileLE x l).filter (fun f => changeSize f = k) =
      if changeSize x = k then
        x :: l.filter (fun f => changeSize f = k)
      else l.filter (fun f => changeSize f = k) := by
  induction l with
  | nil => by_cases h : changeSize x = k <;> simp [List.orderedInsert, h]
  | cons y ys ih =>
    by_cases hxy : fileLE x y
    · by_cases h : changeSize x = k <;>
        simp [List.orderedInsert, hxy, h, List.filter_cons]
    · have hy : changeSize x < changeSize y := Nat.lt_of_not_le hxy
      by_cases h : changeSize x = k
      · have hyk : ¬changeSize y = k := by omega
        simp [List.orderedInsert, hxy, List.filter_cons, hyk, ih, h]
      · by_cases hyk : changeSize y = k <;>
          simp [List.orderedInsert, hxy, List.filter_cons, hyk, ih, h]

/-- Stability of the modelled JavaScript sort: elements of any fixed change
size keep exactly their original relative order. -/
theorem filter_jsSort_changeSize (k : Nat) (l : List FileDiff) :
    (jsSortByChangeSize l).filter (fun f => changeSize f = k) =
      l.filter (fun f => changeSize f = k) := by
  induction l with
  | nil => rfl
  | cons x xs ih =>
    by_cases h : changeSize x = k <;>
      simp [jsSortByChangeSize, List.insertionSort, filter_orderedInsert_changeSize,
        h, List.filter_cons, ih.symm]

/-- A successful `lastOccFrom` result is a genuine occurrence at or below the
search bound. -/
theorem lastOccFrom_some (pat s : Str) (n m : Nat)
    (h : lastOccFrom pat s n = some m) :
    m ≤ n ∧ pat.isPrefixOf (s.drop m) = true := by
  induction n with
  | zero =>
    simp only [lastOccFrom] at h
    split at h
    · cases h
      refine ⟨Nat.le_refl 0, ?_⟩
      rw [List.drop_zero]
      assumption
    · cases h
  | succ j ih =>
    simp only [lastOccFrom] at h
    split at h
    · cases h
      exact ⟨Nat.le_refl _, ‹_›⟩
    · obtain ⟨h1, h2⟩ := ih h
      exact ⟨Nat.le_succ_of_le h1, h2⟩

/-- If `pat` occurs at `i ≤ n`, then `lastOccFrom` finds an occurrence, and it
is the last one: at or after `i`. -/
theorem lastOccFrom_exists (pat s : Str) (n i : Nat) (hi : i ≤ n)
    (hp : pat.isPrefixOf (s.drop i) = true) :
    ∃ m, lastOccFrom pat s n = some m ∧ i ≤ m := by
  induction n with
  | zero =>
    have h0 : i = 0 := Nat.le_zero.mp hi
    subst h0
    simp only [List.drop_zero] at hp
    exact ⟨0, by simp [lastOccFrom, hp], Nat.le_refl 0⟩
  | succ j ih =>
    by_cases hc : pat.isPrefixOf (s.drop (j + 1)) = true
    · exact ⟨j + 1, by simp [lastOccFrom, hc], hi⟩
    · have hij : i ≤ j := by
        rcases Nat.lt_or_ge i (j + 1) with h | h
        · omega
        · exfalso
          have : i = j + 1 := by omega
          exact hc (this ▸ hp)
      obtain ⟨m, hm, him⟩ := ih hij
      exact ⟨m, by simp [lastOccFrom, hc, hm], him⟩

/-- `limitFiles` never yields more files than were found. -/
theorem limitFiles_length_le (allFiles : List FileDiff) (maxFiles : Nat) :
    (limitFiles allFiles maxFiles).1.length ≤ allFiles.length := by
  unfold limitFiles
  by_cases h : allFiles.length > maxFiles
  · simp only [h, if_pos]
    calc ((jsSortByChangeSize (allFiles.filter patchTruthy)).take
        maxFiles).length
        ≤ (jsSortByChangeSize (allFiles.filter patchTruthy)).length :=
          (List.take_sublist _ _).length_le
      _ = (allFiles.filter patchTruthy).length := by
          simp [jsSortByChangeSize, List.length_insertionSort]
      _ ≤ allFiles.length := List.length_filter_le _ _
  · simp [h]

/-- `charTruncate` never lengthens the text. -/
theorem charTruncate_length_le (s : Str) (maxChars : Nat) :
    (charTruncate s maxChars).length ≤ s.length := by
  unfold charTruncate
  by_cases h : s.length > maxChars
  · simp only [h, if_pos]
    split
    · split
      · calc (((s.take maxChars).take _).length)
            ≤ (s.take maxChars).length := (List.take_sublist _ _).length_le
          _ ≤ s.length := (List.take_sublist _ _).length_le
      · exact (List.take_sublist _ _).length_le
    · exact (List.take_sublist _ _).length_le
  · simp [h]

/-! ## C6 -/

/-- C6: for every input, the `TruncationInfo` produced by the normalizer
satisfies `filesReviewed ≤ filesFound`, `truncatedChars ≤ originalChars`, and
`wasTruncated` holds exactly when a truncation reason is present. -/
theorem c6_truncation_invariants (allFiles : List FileDiff)
    (maxFiles maxChars : Nat) (headSha : Str) (hmf : 0 < maxFiles)
    (hmc : 0 < maxChars) :
    (normalizeDiffPure allFiles maxFiles maxChars headSha).truncation.filesReviewed ≤
      (normalizeDiffPure allFiles maxFiles maxChars headSha).truncation.filesFound ∧
    (normalizeDiffPure allFiles maxFiles maxChars headSha).truncation.truncatedChars ≤
      (normalizeDiffPure allFiles maxFiles maxChars headSha).truncation.originalChars ∧
    ((normalizeDiffPure allFiles maxFiles maxChars headSha).truncation.wasTruncated =
        true ↔
      (normalizeDiffPure allFiles maxFiles maxChars
          headSha).truncation.truncationReason.isSome = true) := by
  refine ⟨?_, ?_, ?_⟩
  · simpa [normalizeDiffPure] using limitFiles_length_le allFiles maxFiles
  · simpa [normalizeDiffPure] using
      charTruncate_length_le
        (buildCombinedDiff (limitFiles allFiles maxFiles).1) maxChars
  · simp [normalizeDiffPure]

/-- C6 witness. -/
theorem c6_witness :
    (normalizeDiffPure [] 5 100 "sha".data).truncation.filesReviewed ≤
      (normalizeDiffPure [] 5 100 "sha".data).truncation.filesFound ∧
    (normalizeDiffPure [] 5 100 "sha".data).truncation.truncatedChars ≤
      (normalizeDiffPure [] 5 100 "sha".data).truncation.originalChars ∧
    ((normalizeDiffPure [] 5 100 "sha".data).truncation.wasTruncated = true ↔
      (normalizeDiffPure [] 5 100
          "sha".data).truncation.truncationReason.isSome = true) :=
  c6_truncation_invariants [] 5 100 "sha".data (by decide) (by decide)

/-! ## C7 -/

/-- The `a.ts` file of the spec's worked example: a two-character patch and a
one-line change.  (The spec's example omits `additions`/`deletions`, which
the source requires; they are instantiated consistently with the example's
"larger change size" annotation.) -/
def exFileA : FileDiff :=
  { filename := "a.ts".data, status := .modified, additions := 1
    deletions := 0, patch := some "+x".data, previousFilename := none }

/-- The `b.ts` file of the spec's worked example: a 4000-character patch
(`"+y"` repeated 2000 times) and a correspondingly larger change size. -/
def exFileB : FileDiff :=
  { filename := "b.ts".data, status := .modified, additions := 2000
    deletions := 0, patch := some (List.flatten (List.replicate 2000 "+y".data))
    previousFilename := none }

/-- C7: when more files are found than `maxFiles`, the kept list contains
only files with a non-empty patch (hence never keeps an empty-patch file
while dropping a non-empty-patch one), is sorted descending by
`additions + deletions`, and is stable (files of any fixed change size keep
their original relative order, as a prefix of them); on the spec's worked
example exactly `b.ts` is kept, with `wasTruncated = true`,
`filesReviewed = 1`, `filesFound = 2`. -/
theorem c7_file_truncation :
    (∀ (allFiles : List FileDiff) (maxFiles maxChars : Nat) (headSha : Str),
      allFiles.length > maxFiles →
      (∀ f ∈ (normalizeDiffPure allFiles maxFiles maxChars headSha).files,
        patchTruthy f = true) ∧
      (normalizeDiffPure allFiles maxFiles maxChars headSha).files.Pairwise
        fileLE ∧
      (∀ k, (normalizeDiffPure allFiles maxFiles maxChars
            headSha).files.filter (fun f => changeSize f = k) <+:
        (allFiles.filter patchTruthy).filter (fun f => changeSize f = k))) ∧
    ((normalizeDiffPure [exFileA, exFileB] 1 100000 "sha".data).files =
        [exFileB] ∧
      (normalizeDiffPure [exFileA, exFileB] 1 100000
          "sha".data).truncation.wasTruncated = true ∧
      (normalizeDiffPure [exFileA, exFileB] 1 100000
          "sha".data).truncation.filesReviewed = 1 ∧
      (normalizeDiffPure [exFileA, exFileB] 1 100000
          "sha".data).truncation.filesFound = 2) := by
  constructor
  · intro allFiles maxFiles maxChars headSha h
    have hfiles : (normalizeDiffPure allFiles maxFiles maxChars headSha).files =
        (jsSortByChangeSize (allFiles.filter patchTruthy)).take maxFiles := by
      simp [normalizeDiffPure, limitFiles, h]
    refine ⟨?_, ?_, ?_⟩
    · intro f hf
      rw [hfiles] at hf
      have hf2 : f ∈ jsSortByChangeSize (allFiles.filter patchTruthy) :=
        List.take_subset _ _ hf
      have hf3 : f ∈ allFiles.filter patchTruthy := by
        simpa [jsSortByChangeSize, List.mem_insertionSort] using hf2
      exact (List.mem_filter.mp hf3).2
    · rw [hfiles]
      exact (List.sorted_insertionSort fileLE _).sublist
        (List.take_sublist _ _)
    · intro k
      rw [hfiles]
      calc ((jsSortByChangeSize (allFiles.filter patchTruthy)).take
            maxFiles).filter (fun f => changeSize f = k)
          <+: (jsSortByChangeSize (allFiles.filter patchTruthy)).filter
            (fun f => changeSize f = k) :=
            List.IsPrefix.filter _ (List.take_prefix _ _)
        _ = (allFiles.filter patchTruthy).filter (fun f => changeSize f = k) :=
            filter_jsSort_changeSize k _
  · -- the worked example, evaluated lazily (the 4000-character patch is
    -- never forced element by element: only its length is needed)
    have hlim : limitFiles [exFileA, exFileB] 1 =
        ([exFileB], some "Limited to 1 files (found 2)".data) := rfl
    have hplen : (List.flatten (List.replicate 2000 "+y".data)).length = 4000 := by
      rw [List.length_flatten, List.map_replicate, List.sum_replicate]
      norm_num
    have hblen : (buildCombinedDiff [exFileB]).length = 4042 := by
      have htruthy : patchTruthy exFileB = true := rfl
      have hb : buildCombinedDiff [exFileB] =
          "diff --git a/".data ++ "b.ts".data ++ " b/".data ++ "b.ts".data ++
            "\n--- ".data ++ "modified".data ++ " ---\n".data ++
            List.flatten (List.replicate 2000 "+y".data) := by
        simp only [buildCombinedDiff, List.filter_cons, htruthy, List.filter_nil,
          if_pos, List.map_cons, List.map_nil, List.intercalate,
          List.intersperse, List.flatten_cons, List.flatten_nil,
          List.append_nil]
        rfl
      rw [hb]
      simp only [List.length_append, hplen]
      decide
    have hnottrunc : ¬(buildCombinedDiff [exFileB]).length > 100000 := by
      omega
    refine ⟨?_, ?_, ?_, ?_⟩
    · simp [normalizeDiffPure, hlim]
    · simp [normalizeDiffPure, hlim, hnottrunc]
    · simp [normalizeDiffPure, hlim]
    · simp [normalizeDiffPure, hlim]

/-- C7 witness: the file kept for the worked example has a non-empty patch. -/
theorem c7_witness : patchTruthy exFileB = true :=
  (c7_file_truncation.1 [exFileA, exFileB] 1 100000 "sha".data
    (by decide)).1 exFileB
    (by rw [c7_file_truncation.2.1]; exact List.mem_singleton_self _)

/-! ## C8 -/

/-- C8: when the combined text exceeds `maxChars` and some file-boundary
marker occurs in the truncated window beyond the 50% threshold, the
character truncation cuts exactly at the last such marker: the emitted text
is a prefix of the combined text that is immediately followed, in the
combined text, by the `"\ndiff --git"` marker — so the cut never lands
inside a file's patch — and the cut position is beyond half of `maxChars`.
The second conjunct ties `charTruncate` to the normalizer's output text. -/
theorem c8_char_truncation_boundary :
    (∀ (s : Str) (maxChars : Nat),
      s.length > maxChars →
      (∀ i, 2 * i > maxChars →
        diffMarker.isPrefixOf ((s.take maxChars).drop i) = true →
        (charTruncate s maxChars ++ diffMarker) <+: s ∧
        maxChars < 2 * (charTruncate s maxChars).length) ) ∧
    (∀ (allFiles : List FileDiff) (maxFiles maxChars : Nat) (headSha : Str),
      (normalizeDiffPure allFiles maxFiles maxChars headSha).combinedDiff =
        charTruncate (buildCombinedDiff (limitFiles allFiles maxFiles).1)
          maxChars) := by
  constructor
  · intro s maxChars hlen i hi hp
    have hmarker : diffMarker.length = 11 := by decide
    have htlen : (s.take maxChars).length = maxChars := by
      simp [List.length_take]
      omega
    have hroom : i + diffMarker.length ≤ (s.take maxChars).length := by
      have h1 := (List.isPrefixOf_iff_prefix.mp hp).length_le
      simp [List.length_drop] at h1
      omega
    obtain ⟨m, hm, him⟩ := lastOccFrom_exists diffMarker (s.take maxChars)
      (s.take maxChars).length i (by omega) hp
    obtain ⟨hmle, hmpref⟩ := lastOccFrom_some _ _ _ _ hm
    have hroom' : m + diffMarker.length ≤ (s.take maxChars).length := by
      have h1 := (List.isPrefixOf_iff_prefix.mp hmpref).length_le
      simp [List.length_drop] at h1
      omega
    have hmmax : m ≤ maxChars := by omega
    have h2m : 2 * m > maxChars := by omega
    have hct : charTruncate s maxChars = (s.take maxChars).take m := by
      simp only [charTruncate, if_pos hlen, hm, if_pos h2m]
    have hctlen : (charTruncate s maxChars).length = m := by
      rw [hct]
      simp [List.length_take]
      omega
    refine ⟨?_, ?_⟩
    · -- the emitted text followed by the marker is a prefix of `s`
      have hpref : diffMarker <+: (s.take maxChars).drop m :=
        List.isPrefixOf_iff_prefix.mp hmpref
      have hdrop : (s.take maxChars).drop m = (s.drop m).take (maxChars - m) :=
        List.drop_take maxChars m s
      have hpref2 : diffMarker <+: s.drop m := by
        rw [hdrop] at hpref
        exact hpref.trans (List.take_prefix _ _)
      obtain ⟨rest, hrest⟩ := hpref2
      have htake : charTruncate s maxChars = s.take m := by
        rw [hct, List.take_take]
        congr 1
        omega
      refine ⟨rest, ?_⟩
      rw [htake, List.append_assoc, hrest, List.take_append_drop]
    · omega
  · intro allFiles maxFiles maxChars headSha
    rfl

/-- C8 witness: a 42-character text over a 40-character budget whose marker
sits at position 21 (beyond the 50% threshold) is cut exactly at the
marker. -/
theorem c8_witness :
    (charTruncate
        ("0123456789abcdefghijk".data ++ diffMarker ++ "0123456789".data) 40 ++
      diffMarker) <+:
      ("0123456789abcdefghijk".data ++ diffMarker ++ "0123456789".data) ∧
    40 < 2 * (charTruncate
        ("0123456789abcdefghijk".data ++ diffMarker ++ "0123456789".data)
        40).length :=
  c8_char_truncation_boundary.1
    ("0123456789abcdefghijk".data ++ diffMarker ++ "0123456789".data) 40
    (by decide) 21 (by decide) (by decide)

/-! ## C1 -/

/-- For branches that always fulfill, `allSettled` keeps every slot, in input
order. -/
theorem allSettled_ok_map (g : α → β) (items : List α) (i : Nat) :
    ((allSettledAux (fun x => Except.ok (g x)) items i).filter
        (fun r => r.success && r.result.isSome)).filterMap (·.result) =
      items.map g := by
  induction items generalizing i with
  | nil => rfl
  | cons x xs ih =>
    simp [allSettledAux, List.filter_cons, List.filterMap_cons, ih]

/-- `runScanners` is exactly the per-model scanner results, in the order of
`config.scannerModels`. -/
theorem runScanners_eq (diff : Str) (config : ReviewConfig)
    (language : OutputLanguage) (call : Str → Str → Except Str (Str × Nat)) :
    runScanners diff config language call =
      config.scannerModels.map (fun m =>
        runSingleScanner m (truncateDiff diff) config language call) := by
  unfold runScanners allSettled
  exact allSettled_ok_map _ _ 0

/-- The model id recorded in a scanner result is the model that was asked. -/
theorem runSingleScanner_model (m d : Str) (config : ReviewConfig)
    (language : OutputLanguage) (call : Str → Str → Except Str (Str × Nat)) :
    (runSingleScanner m d config language call).model = m := by
  unfold runSingleScanner
  rcases call m (buildScannerPrompt d language) with e | ⟨c, t⟩ <;> rfl

/-- C1: for every diff and (non-empty) scanner model list, `runScanners`
returns — it never rejects, being modelled as a total function — one
`ScannerResult` per model, in the order of `scannerModels` (the `i`-th
result is attributed to the `i`-th model, whatever each call's outcome): a
failed call becomes an entry with `success = false` carrying the error
message, a successful call an entry with `success = true` carrying the
response. -/
theorem c1_runScanners_shape (diff : Str) (config : ReviewConfig)
    (language : OutputLanguage) (call : Str → Str → Except Str (Str × Nat))
    (hne : config.scannerModels ≠ []) :
    (runScanners diff config language call).length =
      config.scannerModels.length ∧
    (runScanners diff config language call).map (·.model) =
      config.scannerModels ∧
    (∀ (i : Nat) (m e : Str), config.scannerModels[i]? = some m →
      call m (buildScannerPrompt (truncateDiff diff) language) = .error e →
      (runScanners diff config language call)[i]? =
        some ({ model := m, findings := [], rawResponse := [], tokensUsed := 0
                success := false, error := some e } : ScannerResult)) ∧
    (∀ (i : Nat) (m content : Str) (tokens : Nat),
      config.scannerModels[i]? = some m →
      call m (buildScannerPrompt (truncateDiff diff) language) =
        .ok (content, tokens) →
      (runScanners diff config language call)[i]? =
        some ({ model := m, findings := [], rawResponse := content
                tokensUsed := tokens, success := true, error := none } :
          ScannerResult)) := by
  refine ⟨?_, ?_, ?_, ?_⟩
  · rw [runScanners_eq, List.length_map]
  · rw [runScanners_eq, List.map_map]
    have : ((fun r : ScannerResult => r.model) ∘ fun m =>
        runSingleScanner m (truncateDiff diff) config language call) = id := by
      funext m
      simp [runSingleScanner_model]
    rw [this, List.map_id]
  · intro i m e hm hcall
    rw [runScanners_eq, List.getElem?_map, hm]
    simp [runSingleScanner, hcall]
  · intro i m content tokens hm hcall
    rw [runScanners_eq, List.getElem?_map, hm]
    simp [runSingleScanner, hcall]

/-- The call-outcome environment used by the C1 witness: the first model
succeeds, the second fails. -/
def c1Call : Str → Str → Except Str (Str × Nat) :=
  fun m _ => if m = "model-a".data then .ok ("ok text".data, 9)
    else .error "OpenRouter API error (503): upstream".data

/-- The two-scanner configuration used by the C1 witness. -/
def c1Config : ReviewConfig :=
  { sampleConfig with scannerModels := ["model-a".data, "model-b".data] }

/-- C1 witness: with one succeeding and one failing model, both slots are
present, attributed in order, the failure converted to a `success = false`
entry. -/
theorem c1_witness :
    (runScanners "diff text".data c1Config .en c1Call).map (·.model) =
      ["model-a".data, "model-b".data] ∧
    (runScanners "diff text".data c1Config .en c1Call)[1]? =
      some ({ model := "model-b".data, findings := [], rawResponse := []
              tokensUsed := 0, success := false
              error := some "OpenRouter API error (503): upstream".data } :
        ScannerResult) :=
  ⟨(c1_runScanners_shape "diff text".data c1Config .en c1Call
      (by decide)).2.1,
   (c1_runScanners_shape "diff text".data c1Config .en c1Call
      (by decide)).2.2.1 1 "model-b".data
      "OpenRouter API error (503): upstream".data rfl rfl⟩

/-! ## C4 and C5 -/

/-- One-step unfolding of the retry loop on its last attempt. -/
theorem withRetryAux_last (f : Nat → Except Str α) (sr : Str → Bool)
    (opts : RetryOptions) (rands : Nat → ℚ) (attempt : Nat) :
    withRetryAux f sr opts rands attempt 0 =
      match f attempt with
      | .ok v => (.ok v, [], attempt)
      | .error e => (.error e, [], attempt) := rfl

/-- One-step unfolding of the retry loop with retries remaining. -/
theorem withRetryAux_step (f : Nat → Except Str α) (sr : Str → Bool)
    (opts : RetryOptions) (rands : Nat → ℚ) (attempt fuel : Nat) :
    withRetryAux f sr opts rands attempt (fuel + 1) =
      match f attempt with
      | .ok v => (.ok v, [], attempt)
      | .error e =>
        if sr e then
          match withRetryAux f sr opts rands (attempt + 1) fuel with
          | (res, ds, n) =>
            (res, calculateDelay attempt opts (rands attempt) :: ds, n)
        else (.error e, [], attempt) := rfl

/-- C4 (amended): a call whose error message contains one of the retry
triggers (`429`, `rate limit`, `timeout`, `503`, `502`, case-insensitively)
is retried up to 2 additional times — 3 attempts in all — sleeping the
jittered delays of base 1000 ms after the first failure and base 2000 ms
after the second (strictly increasing before jitter; jitter adds at most
+25% of the base); after the third failure the last error is rethrown
unchanged with no further delay.  (Other failures, including plain `500`
responses, are not retried — see the counterexample.) -/
theorem c4_retry_schedule (e : Str) (f : Nat → Except Str α)
    (rands : Nat → ℚ) (hf : ∀ n, f n = .error e)
    (hr : openRouterShouldRetry e = true)
    (hrand : ∀ n, 0 ≤ rands n ∧ rands n < 1) :
    makeRequestModel f rands =
      (.error e,
        [calculateDelay 1 openRouterRetryOptions (rands 1),
         calculateDelay 2 openRouterRetryOptions (rands 2)], 3) ∧
    backoffBaseDelay 1 openRouterRetryOptions = 1000 ∧
    backoffBaseDelay 2 openRouterRetryOptions = 2000 ∧
    (1000 : ℤ) ≤ calculateDelay 1 openRouterRetryOptions (rands 1) ∧
    calculateDelay 1 openRouterRetryOptions (rands 1) ≤ 1250 ∧
    (2000 : ℤ) ≤ calculateDelay 2 openRouterRetryOptions (rands 2) ∧
    calculateDelay 2 openRouterRetryOptions (rands 2) ≤ 2500 := by
  have hfe : f = fun _ => .error e := funext hf
  subst hfe
  have hbase1 : backoffBaseDelay 1 openRouterRetryOptions = 1000 := by
    norm_num [backoffBaseDelay, openRouterRetryOptions, defaultRetryOptions]
  have hbase2 : backoffBaseDelay 2 openRouterRetryOptions = 2000 := by
    norm_num [backoffBaseDelay, openRouterRetryOptions, defaultRetryOptions]
  obtain ⟨hr10, hr11⟩ := hrand 1
  obtain ⟨hr20, hr21⟩ := hrand 2
  have hd1 : calculateDelay 1 openRouterRetryOptions (rands 1) =
      jsRound (1000 + 1000 * (1 / 4) * rands 1) := by
    simp only [calculateDelay, hbase1]
    norm_num [openRouterRetryOptions, defaultRetryOptions]
  have hd2 : calculateDelay 2 openRouterRetryOptions (rands 2) =
      jsRound (2000 + 2000 * (1 / 4) * rands 2) := by
    simp only [calculateDelay, hbase2]
    norm_num [openRouterRetryOptions, defaultRetryOptions]
  refine ⟨?_, hbase1, hbase2, ?_, ?_, ?_, ?_⟩
  · simp only [makeRequestModel, withRetry, withRetryAux, hr, if_true]
  · rw [hd1, jsRound]
    refine Int.le_floor.mpr ?_
    push_cast
    linarith
  · rw [hd1, jsRound]
    have h := Int.floor_lt.mpr
      (show (1000 : ℚ) + 1000 * (1 / 4) * rands 1 + 1 / 2 < ((1251 : ℤ) : ℚ)
        by push_cast; linarith)
    omega
  · rw [hd2, jsRound]
    refine Int.le_floor.mpr ?_
    push_cast
    linarith
  · rw [hd2, jsRound]
    have h := Int.floor_lt.mpr
      (show (2000 : ℚ) + 2000 * (1 / 4) * rands 2 + 1 / 2 < ((2501 : ℤ) : ℚ)
        by push_cast; linarith)
    omega

/-- C4 counterexample: a model call failing with a plain HTTP 500 — a "5xx
server error" in the claim's words — is not retried at all: one attempt, no
delays, contradicting the claimed retry/delay schedule (in particular no
4000 ms delay is ever slept: after the third failed attempt the loop
rethrows immediately, see `withRetryAux_last`). -/
theorem c4_counterexample :
    makeRequestModel
        (fun _ => (Except.error
          (makeRequestErrorMessage 500 "Internal Server Error".data) :
            Except Str Unit))
        (fun _ => 0) =
      (.error (makeRequestErrorMessage 500 "Internal Server Error".data),
        [], 1) := rfl

/-- C4 witness: the amended schedule at the concrete error `"timeout"` with
zero jitter draws: three attempts with delays 1000 ms and 2000 ms. -/
theorem c4_witness :
    makeRequestModel (fun _ => (Except.error "timeout".data : Except Str Unit))
        (fun _ => 0) =
      (.error "timeout".data, [1000, 2000], 3) := by
  have h := (c4_retry_schedule "timeout".data
    (fun _ => (Except.error "timeout".data : Except Str Unit)) (fun _ => 0)
    (fun _ => rfl) (by decide) (fun _ => ⟨le_refl 0, by norm_num⟩)).1
  rw [h]
  norm_num [calculateDelay, backoffBaseDelay, openRouterRetryOptions,
    defaultRetryOptions, jsRound]

/-- C5 (amended): a 400-equivalent failure whose message contains none of the
retry-trigger substrings is never retried: exactly one attempt is made and
the original error is propagated unchanged.  (A 400 whose *body text*
happens to contain a trigger such as `rate limit` IS retried — see the
counterexample.) -/
theorem c5_bad_request_no_retry (errorText : Str) (f : Nat → Except Str α)
    (rands : Nat → ℚ)
    (hf : f 1 = .error (makeRequestErrorMessage 400 errorText))
    (hnr : openRouterShouldRetry (makeRequestErrorMessage 400 errorText) =
      false) :
    makeRequestModel f rands =
      (.error (makeRequestErrorMessage 400 errorText), [], 1) := by
  unfold makeRequestModel withRetry
  rw [show openRouterRetryOptions.maxAttempts - 1 = 1 + 1 from rfl]
  rw [withRetryAux_step, hf]
  simp only [hnr, Bool.false_eq_true, if_false]

/-- C5 counterexample: a 400 response whose body text mentions a rate limit
is retried to exhaustion — three attempts with backoff sleeps — refuting
"never retried: exactly one attempt is made". -/
theorem c5_counterexample :
    makeRequestModel
        (fun _ => (Except.error
          (makeRequestErrorMessage 400 "Rate limit exceeded".data) :
            Except Str Unit))
        (fun _ => 0) =
      (.error (makeRequestErrorMessage 400 "Rate limit exceeded".data),
        [1000, 2000], 3) := by
  have hr : openRouterShouldRetry
      (makeRequestErrorMessage 400 "Rate limit exceeded".data) = true := by
    decide
  simp only [makeRequestModel, withRetry, withRetryAux, hr, if_true]
  norm_num [calculateDelay, backoffBaseDelay, openRouterRetryOptions,
    defaultRetryOptions, jsRound]

/-- C5 witness: a 400 with a plain body is rejected after exactly one
attempt, the error unchanged. -/
theorem c5_witness :
    makeRequestModel
        (fun _ => (Except.error
          (makeRequestErrorMessage 400 "Bad Request".data) :
            Except Str Unit))
        (fun _ => 0) =
      (.error (makeRequestErrorMessage 400 "Bad Request".data), [], 1) :=
  c5_bad_request_no_retry "Bad Request".data _ _ rfl (by decide)

/-! ## C9 -/

/-- The summary text injected into the synthetic judge responses (free of
bullet markers, section markers and severity keywords). -/
def syntheticSummary : Str := "The change is mostly safe with a few issues.".data

/-- The critical-section bullet description (longer than 10 characters, free
of severity/header keywords). -/
def syntheticCritical : Str :=
  "Unchecked buffer access in request handler".data

/-- The high-section bullet description. -/
def syntheticHigh : Str := "Missing null check before dereference".data

/-- The low-section bullet description. -/
def syntheticLow : Str := "Inconsistent naming of helper methods".data

/-- The localized verdict keyword injected per language (an approve keyword
for en/ja/es/zh/ko, a request-changes keyword for tr/de/fr/pt). -/
def syntheticVerdictText (l : OutputLanguage) : Str :=
  match l with
  | .en => "APPROVE".data
  | .tr => "Değişiklik gerekli".data
  | .ja => "承認".data
  | .de => "Änderungen erforderlich".data
  | .fr => "Modifications requises".data
  | .es => "Aprobado".data
  | .pt => "Alterações necessárias".data
  | .zh => "批准".data
  | .ko => "승인".data

/-- The verdict each injected keyword denotes. -/
def expectedVerdict (l : OutputLanguage) : Verdict :=
  match l with
  | .en => .approve
  | .tr => .requestChanges
  | .ja => .approve
  | .de => .requestChanges
  | .fr => .requestChanges
  | .es => .approve
  | .pt => .requestChanges
  | .zh => .approve
  | .ko => .approve

/-- The synthetic judge response for a language, assembled from that
language's localized section headers in the layout `buildJudgePrompt`
requests: summary, critical, high and low sections with one bullet finding
each, and a verdict section holding the localized keyword. -/
def syntheticResponse (l : OutputLanguage) : Str :=
  let h := getSectionHeaders l
  "## ".data ++ h.summary ++ "\n".data ++ syntheticSummary ++
    "\n\n## ".data ++ h.critical ++ "\n- ".data ++ syntheticCritical ++
    "\n\n## ".data ++ h.high ++ "\n- ".data ++ syntheticHigh ++
    "\n\n## ".data ++ h.low ++ "\n- ".data ++ syntheticLow ++
    "\n\n## ".data ++ h.verdict ++ "\n".data ++ syntheticVerdictText l ++
    "\n".data

/-- The findings `parseFindings` must recover from every synthetic response:
the three injected bullets, tagged with their sections' severities. -/
def expectedFindings : List Finding :=
  [{ id := "finding-0".data, severity := .critical, category := .bug
     file := none, line := none, description := syntheticCritical
     suggestion := none },
   { id := "finding-1".data, severity := .high, category := .bug
     file := none, line := none, description := syntheticHigh
     suggestion := none },
   { id := "finding-2".data, severity := .low, category := .bug
     file := none, line := none, description := syntheticLow
     suggestion := none }]

/-- C9: for each of the nine supported languages, the parsers recover exactly
what was injected into the synthetic localized judge response: the three
bullet findings with their sections' severities, the summary text, and the
verdict denoted by the localized keyword. -/
theorem c9_localized_round_trip :
    ∀ l : OutputLanguage,
      parseFindings (syntheticResponse l) l = expectedFindings ∧
      extractSummary (syntheticResponse l) l = syntheticSummary ∧
      extractVerdict (syntheticResponse l) l = expectedVerdict l := by
  intro l
  cases l <;> exact ⟨by decide, by decide, by decide⟩

end AIReviewer
